import Mathlib

/-!
Shallow embedding of `kazoo/request_objects.py` (kazoo-sdk): the
`KazooRequest` descriptor, its `execute` flow, response classification,
and the two authentication request variants.

Python exceptions are modelled by the `Outcome` inductive; the HTTP
transport is a parameter `HttpRequest → RawResponse`; `execute` returns
its outcome together with the list of dispatched requests (so "no
network call" is expressible as an empty list).
-/

set_option maxRecDepth 4000

/-- Brace characters, written via code points to keep string literals plain. -/
def lbrace : Char := Char.ofNat 123

def rbrace : Char := Char.ofNat 125

/-- JSON values as decoded by `response.json()` / passed as body payloads.
Numbers are modelled as integers (no claim involves fractional values). -/
inductive Json where
  | null
  | bool (b : Bool)
  | num (n : Int)
  | str (s : String)
  | arr (xs : List Json)
  | obj (fields : List (String × Json))
deriving Repr

/-- Python truthiness of a decoded JSON value (`if data:` / `if raw_response.json():`). -/
def Json.truthy : Json → Bool
  | .null => false
  | .bool b => b
  | .num n => n != 0
  | .str s => !s.isEmpty
  | .arr xs => !xs.isEmpty
  | .obj fs => !fs.isEmpty

/-- Python `x["k"]` on a decoded JSON value: `KeyError` on a dict without
the key, `TypeError` on a non-dict. -/
def Json.subscript : Json → String → Except String Json
  | .obj fs, k =>
    match List.lookup k fs with
    | some v => .ok v
    | none => .error "KeyError"
  | _, _ => .error "TypeError"

/-- Python `"k" in x` for a decoded JSON dict. -/
def Json.hasKey (j : Json) (k : String) : Bool :=
  match j.subscript k with
  | .ok _ => true
  | .error _ => false

/-- Python `x == "s"`: true exactly when the JSON value is that string. -/
def Json.isStr (j : Json) (s : String) : Bool :=
  match j with
  | .str t => t == s
  | _ => false

/-- Lowercase hex digit for a value below 16. -/
def hexDigit (n : Nat) : Char :=
  if n < 10 then Char.ofNat (48 + n) else Char.ofNat (87 + n % 16)

/-- Uppercase hex digit for a value below 16. -/
def hexDigitUpper (n : Nat) : Char :=
  if n < 10 then Char.ofNat (48 + n) else Char.ofNat (55 + n % 16)

/-- Two lowercase hex digits of a byte. -/
def byteHex (b : Nat) : String :=
  String.mk [hexDigit ((b / 16) % 16), hexDigit (b % 16)]

/-- `\uXXXX` escape used by `json.dumps` with `ensure_ascii=True`. -/
def uEscape (n : Nat) : String :=
  String.mk ['\\', 'u', hexDigit ((n / 4096) % 16), hexDigit ((n / 256) % 16),
             hexDigit ((n / 16) % 16), hexDigit (n % 16)]

/-- `json.dumps` escaping of one character (default `ensure_ascii=True`):
short escapes for the JSON control set, `\uXXXX` (with surrogate pairs
above the BMP) for other non-ASCII or control characters. -/
def jsonEscapeChar (c : Char) : String :=
  let n := c.toNat
  if c = '"' then "\\\""
  else if c = '\\' then "\\\\"
  else if c = '\n' then "\\n"
  else if c = '\r' then "\\r"
  else if c = '\t' then "\\t"
  else if n = 8 then "\\b"
  else if n = 12 then "\\f"
  else if n < 32 then uEscape n
  else if n < 127 then String.mk [c]
  else if n < 65536 then uEscape n
  else uEscape (55296 + (n - 65536) / 1024) ++ uEscape (56320 + (n - 65536) % 1024)

/-- `json.dumps` rendering of a string literal. -/
def jsonEscapeString (s : String) : String :=
  "\"" ++ (s.data.foldr (fun c acc => jsonEscapeChar c ++ acc) "") ++ "\""

mutual

/-- `json.dumps` with its default separators `", "` and `": "`. -/
def Json.dumps : Json → String
  | .null => "null"
  | .bool b => if b then "true" else "false"
  | .num n => toString n
  | .str s => jsonEscapeString s
  | .arr xs => "[" ++ dumpsElems xs ++ "]"
  | .obj fs => "\x7b" ++ dumpsFields fs ++ "\x7d"

def dumpsElems : List Json → String
  | [] => ""
  | [x] => Json.dumps x
  | x :: y :: rest => Json.dumps x ++ ", " ++ dumpsElems (y :: rest)

def dumpsFields : List (String × Json) → String
  | [] => ""
  | [(k, v)] => jsonEscapeString k ++ ": " ++ Json.dumps v
  | (k, v) :: p :: rest => jsonEscapeString k ++ ": " ++ Json.dumps v ++ ", " ++ dumpsFields (p :: rest)

end

/-- UTF-8 bytes of one character (Python `str.encode()`). -/
def utf8Char (c : Char) : List Nat :=
  let n := c.toNat
  if n < 128 then [n]
  else if n < 2048 then [192 + n / 64, 128 + n % 64]
  else if n < 65536 then [224 + n / 4096, 128 + (n / 64) % 64, 128 + n % 64]
  else [240 + n / 262144, 128 + (n / 4096) % 64, 128 + (n / 64) % 64, 128 + n % 64]

/-- UTF-8 bytes of a string (Python `str.encode()`). -/
def utf8Encode (s : String) : List Nat :=
  s.data.foldr (fun c acc => utf8Char c ++ acc) []

/-! ### MD5 (`hashlib.md5`), over byte lists, all arithmetic on `Nat` mod 2^32 -/

/-- The 64 MD5 sine-derived constants `floor(abs(sin(i+1)) * 2^32)`. -/
def md5K : List Nat :=
  [3614090360, 3905402710, 606105819, 3250441966,
   4118548399, 1200080426, 2821735955, 4249261313,
   1770035416, 2336552879, 4294925233, 2304563134,
   1804603682, 4254626195, 2792965006, 1236535329,
   4129170786, 3225465664, 643717713, 3921069994,
   3593408605, 38016083, 3634488961, 3889429448,
   568446438, 3275163606, 4107603335, 1163531501,
   2850285829, 4243563512, 1735328473, 2368359562,
   4294588738, 2272392833, 1839030562, 4259657740,
   2763975236, 1272893353, 4139469664, 3200236656,
   681279174, 3936430074, 3572445317, 76029189,
   3654602809, 3873151461, 530742520, 3299628645,
   4096336452, 1126891415, 2878612391, 4237533241,
   1700485571, 2399980690, 4293915773, 2240044497,
   1873313359, 4264355552, 2734768916, 1309151649,
   4149444226, 3174756917, 718787259, 3951481745]

/-- The 64 MD5 per-round left-rotation amounts. -/
def md5S : List Nat :=
  [7, 12, 17, 22, 7, 12, 17, 22, 7, 12, 17, 22, 7, 12, 17, 22,
   5, 9, 14, 20, 5, 9, 14, 20, 5, 9, 14, 20, 5, 9, 14, 20,
   4, 11, 16, 23, 4, 11, 16, 23, 4, 11, 16, 23, 4, 11, 16, 23,
   6, 10, 15, 21, 6, 10, 15, 21, 6, 10, 15, 21, 6, 10, 15, 21]

/-- 32-bit left rotation on `Nat` (inputs below 2^32). -/
def rotl32 (x s : Nat) : Nat :=
  (x * 2 ^ (s % 32) + x / 2 ^ (32 - s % 32)) % 4294967296

/-- 32-bit bitwise complement. -/
def not32 (x : Nat) : Nat := 4294967295 - x % 4294967296

/-- MD5 nonlinear function and message index for round `i` given `b c d`. -/
def md5FG (i b c d : Nat) : Nat × Nat :=
  if i < 16 then (Nat.lor (Nat.land b c) (Nat.land (not32 b) d), i)
  else if i < 32 then (Nat.lor (Nat.land d b) (Nat.land (not32 d) c), (5 * i + 1) % 16)
  else if i < 48 then (Nat.xor b (Nat.xor c d), (3 * i + 5) % 16)
  else (Nat.xor c (Nat.lor b (not32 d)), (7 * i) % 16)

/-- One MD5 round applied to the state `(a, b, c, d)`. -/
def md5Round (m : List Nat) (st : Nat × Nat × Nat × Nat) (i : Nat) :
    Nat × Nat × Nat × Nat :=
  match st with
  | (a, b, c, d) =>
    let fg := md5FG i b c d
    let f := (fg.1 + a + md5K.getD i 0 + m.getD fg.2 0) % 4294967296
    (d, (b + rotl32 f (md5S.getD i 0)) % 4294967296, b, c)

/-- Little-endian 32-bit words from a 64-byte chunk. -/
def chunkWords (chunk : List Nat) : List Nat :=
  (List.range 16).map (fun j =>
    chunk.getD (4 * j) 0 + 256 * chunk.getD (4 * j + 1) 0 +
    65536 * chunk.getD (4 * j + 2) 0 + 16777216 * chunk.getD (4 * j + 3) 0)

/-- Process one 64-byte chunk into the running MD5 state. -/
def md5Chunk (st : Nat × Nat × Nat × Nat) (chunk : List Nat) :
    Nat × Nat × Nat × Nat :=
  match st with
  | (a0, b0, c0, d0) =>
    let m := chunkWords chunk
    match (List.range 64).foldl (md5Round m) (a0, b0, c0, d0) with
    | (a, b, c, d) =>
      ((a0 + a) % 4294967296, (b0 + b) % 4294967296,
       (c0 + c) % 4294967296, (d0 + d) % 4294967296)

/-- Split a byte list into 64-byte chunks (all full after MD5 padding);
the first argument is fuel bounding the recursion depth. -/
def chunks64Aux : Nat → List Nat → List (List Nat)
  | 0, _ => []
  | _, [] => []
  | fuel + 1, x :: xs => ((x :: xs).take 64) :: chunks64Aux fuel ((x :: xs).drop 64)

/-- Split a byte list into 64-byte chunks. -/
def chunks64 (l : List Nat) : List (List Nat) :=
  chunks64Aux l.length l

/-- Little-endian byte expansion, `k` bytes. -/
def leBytes (k x : Nat) : List Nat :=
  (List.range k).map (fun j => (x / 256 ^ j) % 256)

/-- MD5 padding: `0x80`, zeros to 56 mod 64, then the 64-bit LE bit length. -/
def md5Pad (msg : List Nat) : List Nat :=
  let z := (120 - ((msg.length + 1) % 64)) % 64
  msg ++ [128] ++ List.replicate z 0 ++ leBytes 8 ((8 * msg.length) % 18446744073709551616)

/-- MD5 digest bytes of a byte list. -/
def md5Bytes (msg : List Nat) : List Nat :=
  match (chunks64 (md5Pad msg)).foldl md5Chunk
      (1732584193, 4023233417, 2562383102, 271733878) with
  | (a, b, c, d) => leBytes 4 a ++ leBytes 4 b ++ leBytes 4 c ++ leBytes 4 d

/-- `hashlib.md5(msg).hexdigest()`. -/
def md5Hex (msg : List Nat) : String :=
  String.join ((md5Bytes msg).map byteHex)

/-! ### Path template scanning (`KazooRequest._get_params_from_path`) -/

/-- A character of the regex class `[a-zA-Z0-9_]`. -/
def isWordChar (c : Char) : Bool :=
  (('a' ≤ c && c ≤ 'z') || ('A' ≤ c && c ≤ 'Z') || ('0' ≤ c && c ≤ '9') || c = '_')

/-- `re.findall("\x7b([a-zA-Z0-9_]+)\x7d", path)`: non-overlapping scan,
left to right; a match is an opening brace, a maximal nonempty run of
word characters, and a closing brace; on a failed match attempt the
scan resumes one character later. The first argument is fuel bounding
the recursion depth (the wrapper passes the input length, which always
suffices since every step consumes at least one character). -/
def findParamsAux : Nat → List Char → List String
  | 0, _ => []
  | _, [] => []
  | fuel + 1, c :: rest =>
    if c = lbrace then
      match rest.dropWhile isWordChar with
      | d :: rest3 =>
        if d = rbrace ∧ rest.takeWhile isWordChar ≠ [] then
          String.mk (rest.takeWhile isWordChar) :: findParamsAux fuel rest3
        else
          findParamsAux fuel rest
      | [] => findParamsAux fuel rest
    else
      findParamsAux fuel rest

/-- The regex scan over a character list. -/
def findParams (l : List Char) : List String :=
  findParamsAux l.length l

/-- `KazooRequest._get_params_from_path`. -/
def _get_params_from_path (path : String) : List String :=
  findParams path.data

/-! ### `str.format`-style substitution (`_get_url_with_variables_replaced`) -/

/-- Split a replacement field at its closing brace: the field name and
the remainder after the brace, or `none` when the brace never comes. -/
def splitAtRbrace : List Char → Option (List Char × List Char)
  | [] => none
  | c :: rest =>
    if c = rbrace then some ([], rest)
    else (splitAtRbrace rest).map (fun pr => (c :: pr.1, pr.2))

/-- Python `path.format(**params)`, restricted to the plain replacement
fields this library uses: `\x7b\x7b` and `\x7d\x7d` escapes and
`\x7bname\x7d` fields looked up among the keyword arguments. `none`
models the exceptions `str.format` raises (unmatched brace, missing
key, a positional field, or a field form outside this fragment). The
first argument is fuel bounding the recursion depth. -/
def formatScanAux (kw : List (String × String)) : Nat → List Char → Option String
  | 0, l => if l.isEmpty then some "" else none
  | _, [] => some ""
  | fuel + 1, c :: rest =>
    if c = lbrace then
      match rest with
      | [] => none
      | d :: rest2 =>
        if d = lbrace then
          (formatScanAux kw fuel rest2).map (fun s => String.mk [lbrace] ++ s)
        else
          match splitAtRbrace (d :: rest2) with
          | none => none
          | some (nm, rest3) =>
            match List.lookup (String.mk nm) kw with
            | some v => (formatScanAux kw fuel rest3).map (fun s => v ++ s)
            | none => none
    else if c = rbrace then
      match rest with
      | [] => none
      | d :: rest2 =>
        if d = rbrace then
          (formatScanAux kw fuel rest2).map (fun s => String.mk [rbrace] ++ s)
        else none
    else
      (formatScanAux kw fuel rest).map (fun s => String.mk [c] ++ s)

/-- The `str.format` scan over a character list. -/
def formatScan (kw : List (String × String)) (l : List Char) : Option String :=
  formatScanAux kw l.length l

/-- `self.path.format(**params)`. -/
def _get_url_with_variables_replaced (path : String) (params : List (String × String)) :
    Option String :=
  formatScan params path.data

/-! ### Query-string encoding (`urllib.parse.urlencode`) -/

/-- `urllib.parse.quote_plus` on one character: space to `+`, the unreserved
set kept, anything else percent-encoded per UTF-8 byte, uppercase hex. -/
def quotePlusChar (c : Char) : String :=
  if c = ' ' then "+"
  else if (('a' ≤ c && c ≤ 'z') || ('A' ≤ c && c ≤ 'Z') || ('0' ≤ c && c ≤ '9')
           || c = '_' || c = '.' || c = '-' || c = '~') then String.mk [c]
  else String.join ((utf8Char c).map (fun b =>
    String.mk ['%', hexDigitUpper ((b / 16) % 16), hexDigitUpper (b % 16)]))

/-- `urllib.parse.quote_plus` on a string. -/
def quotePlus (s : String) : String :=
  s.data.foldr (fun c acc => quotePlusChar c ++ acc) ""

/-- `urllib.parse.urlencode` over the static query parameters. -/
def urlencode (ps : List (String × String)) : String :=
  String.intercalate "&" (ps.map (fun p => quotePlus p.1 ++ "=" ++ quotePlus p.2))

/-! ### The request descriptor and its execution -/

/-- ASCII lowercasing (`str.lower()` restricted to the ASCII range its
results are compared against here). -/
def strLower (s : String) : String :=
  String.mk (s.data.map Char.toLower)

/-- Multipart file payloads (`files=` dict), name to content. -/
def Files := List (String × String)

/-- `KazooRequest`: immutable descriptor configuration. -/
structure KazooRequest where
  path : String
  auth_required : Bool
  method : String
  get_params : Option (List (String × String))

/-- The required parameter names computed at construction. -/
def KazooRequest.required_param_names (r : KazooRequest) : List String :=
  _get_params_from_path r.path

/-- `KazooRequest.http_methods`. -/
def http_methods : List String := ["get", "post", "put", "delete"]

/-- `KazooRequest._get_headers`: JSON content type always, the auth-token
header (whose value may be the pass-through `None`) only when required. -/
def _get_headers (auth_required : Bool) (token : Option String) :
    List (String × Option String) :=
  if auth_required then
    [("Content-Type", some "application/json"), ("X-Auth-Token", token)]
  else
    [("Content-Type", some "application/json")]

/-- `KazooRequest._get_url`: base url, substituted path, then the encoded
static query parameters when they are truthy (present and non-empty). -/
def _get_url (r : KazooRequest) (params : List (String × String)) (base_url : String) :
    Option String :=
  (_get_url_with_variables_replaced r.path params).map (fun p =>
    let url := base_url ++ p
    match r.get_params with
    | some gps => if gps.isEmpty then url else url ++ "?" ++ urlencode gps
    | none => url)

/-- The first required parameter name missing from the supplied keyword
arguments (the validation loop raises on the first one). -/
def firstMissing (required : List String) (kwargs : List (String × String)) :
    Option String :=
  required.find? (fun p => !(kwargs.map Prod.fst).contains p)

/-- One dispatched HTTP request as handed to the `requests` function. -/
structure HttpRequest where
  method : String
  url : String
  headers : List (String × Option String)
  body : Option String
  files : Option Files

/-- A raw HTTP response: status code, headers, and the result of
`.json()` (`none` models a body that fails to decode). -/
structure RawResponse where
  status_code : Nat
  headers : List (String × String)
  jsonBody : Option Json

/-- `requests`' case-insensitive response-header lookup. -/
def headerGet (hs : List (String × String)) (k : String) : Option String :=
  (hs.find? (fun p => strLower p.1 == strLower k)).map Prod.snd

/-- Every way `execute` can finish: a returned body, one of the typed
library exceptions, or an untyped Python exception (by kind). -/
inductive Outcome where
  | success (body : Json)
  | invalidMethod (method : String)
  | missingParam (name : String)
  | badData (data : Json)
  | authError (message : String)
  | apiError (request_id : Json) (message : Json)
  | pythonError (kind : String)
deriving Repr

/-- `KazooRequest._handle_500_error`: the `X-Request-Id` header, then the
`data` field of a truthy decoded body, or the fixed placeholder for a
falsy one; an undecodable body propagates the decoder's error. -/
def _handle_500_error (resp : RawResponse) : Outcome :=
  match headerGet resp.headers "X-Request-Id" with
  | none => .pythonError "KeyError"
  | some request_id =>
    match resp.jsonBody with
    | none => .pythonError "JSONDecodeError"
    | some j =>
      if j.truthy then
        match j.subscript "data" with
        | .ok message => .apiError (.str request_id) message
        | .error kind => .pythonError kind
      else
        .apiError (.str request_id) (.str "There was no error message")

/-- `KazooRequest._handle_error`: `400` with a `data` field, then `401`,
then the generic API error from `request_id` and `message`. -/
def _handle_error (error_data : Json) : Outcome :=
  match error_data.subscript "error" with
  | .error kind => .pythonError kind
  | .ok e =>
    if e.isStr "400" && error_data.hasKey "data" then
      match error_data.subscript "data" with
      | .ok d => .badData d
      | .error kind => .pythonError kind
    else if e.isStr "401" then
      .authError "Invalid credentials"
    else
      match error_data.subscript "request_id" with
      | .error kind => .pythonError kind
      | .ok request_id =>
        match error_data.subscript "message" with
        | .error kind => .pythonError kind
        | .ok message => .apiError request_id message

/-- Classification of the raw response at the end of `execute`. -/
def handleResponse (resp : RawResponse) : Outcome :=
  if resp.status_code = 500 then
    _handle_500_error resp
  else
    match resp.jsonBody with
    | none => .pythonError "JSONDecodeError"
    | some response =>
      match response.subscript "status" with
      | .error kind => .pythonError kind
      | .ok st =>
        if st.isStr "error" then _handle_error response else .success response

/-- The request handed to `requests.<method>`: the body is present only
for truthy `data` (then `json.dumps({"data": data})`), the files only
when truthy. -/
def builtRequest (method full_url : String) (auth_required : Bool)
    (token : Option String) (data : Option Json) (files : Option Files) :
    HttpRequest :=
  ⟨method, full_url, _get_headers auth_required token,
   (match data with
    | some d => if d.truthy then some (Json.dumps (Json.obj [("data", d)])) else none
    | none => none),
   (match files with
    | some f => if List.isEmpty f then none else some f
    | none => none)⟩

/-- `KazooRequest.execute`, with the HTTP transport as a parameter; the
second component lists the dispatched requests, so an empty list states
that no network call happened. `getattr(requests, method)` only finds
the four lowercase attribute names, hence the exact-match test after
the case-insensitive validation. -/
def KazooRequest.execute (r : KazooRequest) (transport : HttpRequest → RawResponse)
    (base_url : String) (methodArg : Option String) (data : Option Json)
    (token : Option String) (files : Option Files)
    (kwargs : List (String × String)) : Outcome × List HttpRequest :=
  let method := methodArg.getD r.method
  if http_methods.contains (strLower method) then
    match firstMissing r.required_param_names kwargs with
    | some name => (.missingParam name, [])
    | none =>
      match _get_url r kwargs base_url with
      | none => (.pythonError "KeyError", [])
      | some full_url =>
        if http_methods.contains method then
          let hreq := builtRequest method full_url r.auth_required token data files
          (handleResponse (transport hreq), [hreq])
        else
          (.pythonError "AttributeError", [])
  else
    (.invalidMethod method, [])

/-! ### The authentication request variants -/

/-- `UsernamePasswordAuthRequest.__init__` state. -/
structure UsernamePasswordAuthRequest where
  username : String
  password : String
  account_name : String

/-- The parent descriptor built by `UsernamePasswordAuthRequest.__init__`:
path `/user_auth`, no auth header, defaults elsewhere. -/
def UsernamePasswordAuthRequest.toKazooRequest (_a : UsernamePasswordAuthRequest) :
    KazooRequest :=
  ⟨"/user_auth", false, "get", none⟩

/-- `UsernamePasswordAuthRequest._get_hashed_credentials`:
`md5("{0}:{1}".format(username, password).encode()).hexdigest()`. -/
def _get_hashed_credentials (username password : String) : String :=
  md5Hex (utf8Encode (username ++ ":" ++ password))

/-- `UsernamePasswordAuthRequest.execute(base_url)`. -/
def UsernamePasswordAuthRequest.execute (a : UsernamePasswordAuthRequest)
    (transport : HttpRequest → RawResponse) (base_url : String) :
    Outcome × List HttpRequest :=
  let data := Json.obj
    [("credentials", .str (_get_hashed_credentials a.username a.password)),
     ("account_name", .str a.account_name)]
  KazooRequest.execute (a.toKazooRequest) transport base_url (some "put")
    (some data) none none []

/-- `ApiKeyAuthRequest.__init__` state. -/
structure ApiKeyAuthRequest where
  api_key : String

/-- The parent descriptor built by `ApiKeyAuthRequest.__init__`. -/
def ApiKeyAuthRequest.toKazooRequest (_a : ApiKeyAuthRequest) : KazooRequest :=
  ⟨"/api_auth", false, "get", none⟩

/-- `ApiKeyAuthRequest.execute(base_url)`. -/
def ApiKeyAuthRequest.execute (a : ApiKeyAuthRequest)
    (transport : HttpRequest → RawResponse) (base_url : String) :
    Outcome × List HttpRequest :=
  KazooRequest.execute (a.toKazooRequest) transport base_url (some "put")
    (some (Json.obj [("api_key", .str a.api_key)])) none none []

/-- Does an outcome model the spec's MissingParameterError? -/
def Outcome.isMissingParam : Outcome → Bool
  | .missingParam _ => true
  | _ => false

/-- Does an outcome model the spec's GenericApiError? -/
def Outcome.isApiError : Outcome → Bool
  | .apiError _ _ => true
  | _ => false

/-! ### Shared lemmas about the execution pipeline -/

/-- A method in the exact lowercase list also passes the lowercased check. -/
theorem method_contains_lower {m : String} (hm : http_methods.contains m = true) :
    http_methods.contains (strLower m) = true := by
  have hcases : m = "get" ∨ m = "post" ∨ m = "put" ∨ m = "delete" := by
    simpa [http_methods] using hm
  rcases hcases with h | h | h | h <;> subst h <;> rfl

/-- When the resolved method passes both method checks, all required
parameters are supplied, and the URL builds, `execute` dispatches exactly
one request, built by `builtRequest`, and classifies its response. -/
theorem execute_dispatches (r : KazooRequest) (transport : HttpRequest → RawResponse)
    (base_url : String) (methodArg : Option String) (data : Option Json)
    (token : Option String) (files : Option Files) (kwargs : List (String × String))
    (full_url : String)
    (hm : http_methods.contains (methodArg.getD r.method) = true)
    (hp : firstMissing r.required_param_names kwargs = none)
    (hu : _get_url r kwargs base_url = some full_url) :
    KazooRequest.execute r transport base_url methodArg data token files kwargs =
      (handleResponse (transport (builtRequest (methodArg.getD r.method) full_url
          r.auth_required token data files)),
       [builtRequest (methodArg.getD r.method) full_url r.auth_required token data files]) := by
  have hml := method_contains_lower hm
  unfold KazooRequest.execute
  simp only [hml, if_true, hp, hu, hm]

/-! ### Claim C7 -/

/-- C7: for every execute call whose resolved method (explicit override if
given, else the descriptor default) is, case-insensitively, not one of
GET/POST/PUT/DELETE, execution fails with `InvalidMethodError`, regardless
of which named parameters are supplied and before any network call. -/
theorem C7_invalid_method_rejected (r : KazooRequest) (transport : HttpRequest → RawResponse)
    (base_url : String) (methodArg : Option String) (data : Option Json)
    (token : Option String) (files : Option Files) (kwargs : List (String × String))
    (hm : http_methods.contains (strLower (methodArg.getD r.method)) = false) :
    KazooRequest.execute r transport base_url methodArg data token files kwargs =
      (.invalidMethod (methodArg.getD r.method), []) := by
  unfold KazooRequest.execute
  simp only [hm, Bool.false_eq_true, if_false]

/-- Witness for C7 at method `"PATCH"` with a parameterless descriptor. -/
theorem C7_witness :
    http_methods.contains (strLower ((some "PATCH").getD
      (KazooRequest.method ⟨"/a", true, "get", none⟩))) = false ∧
    KazooRequest.execute ⟨"/a", true, "get", none⟩ (fun _ => ⟨200, [], none⟩) "http://x"
      (some "PATCH") none none none [] = (.invalidMethod "PATCH", []) :=
  ⟨rfl, C7_invalid_method_rejected ⟨"/a", true, "get", none⟩ (fun _ => ⟨200, [], none⟩)
    "http://x" (some "PATCH") none none none [] rfl⟩

/-! ### Claim C1 -/

/-- C1 counterexample: with required path parameter `b` absent but the
method override `"patch"` invalid, `execute` fails with
`InvalidMethodError`, not `MissingParameterError` — the method check runs
first — so the claim as stated (every call with a missing required
parameter fails with MissingParameterError) is false. -/
theorem C1_counterexample :
    ("b" ∈ KazooRequest.required_param_names ⟨"/a/\x7bb\x7d", true, "get", none⟩) ∧
    (KazooRequest.execute ⟨"/a/\x7bb\x7d", true, "get", none⟩ (fun _ => ⟨200, [], none⟩)
        "http://x" (some "patch") none none none []).1 = .invalidMethod "patch" ∧
    Outcome.isMissingParam (KazooRequest.execute ⟨"/a/\x7bb\x7d", true, "get", none⟩
        (fun _ => ⟨200, [], none⟩) "http://x" (some "patch") none none none []).1 = false :=
  ⟨by decide, rfl, rfl⟩

/-- C1 amended: for every execute call whose resolved method passes the
case-insensitive GET/POST/PUT/DELETE check and in which at least one
required path parameter name is absent from the supplied named
parameters, execute fails with `MissingParameterError` (naming a missing
required parameter) and performs no network call. -/
theorem C1_missing_param_fails_fast (r : KazooRequest) (transport : HttpRequest → RawResponse)
    (base_url : String) (methodArg : Option String) (data : Option Json)
    (token : Option String) (files : Option Files) (kwargs : List (String × String))
    (hm : http_methods.contains (strLower (methodArg.getD r.method)) = true)
    (hmiss : ∃ p ∈ r.required_param_names, (kwargs.map Prod.fst).contains p = false) :
    ∃ name ∈ r.required_param_names, (kwargs.map Prod.fst).contains name = false ∧
      KazooRequest.execute r transport base_url methodArg data token files kwargs =
        (.missingParam name, []) := by
  have hsome : (firstMissing r.required_param_names kwargs).isSome = true := by
    unfold firstMissing
    apply List.find?_isSome.mpr
    obtain ⟨p, hpmem, hpc⟩ := hmiss
    exact ⟨p, hpmem, by rw [hpc]; rfl⟩
  obtain ⟨name, hname⟩ := Option.isSome_iff_exists.mp hsome
  have hfind : List.find? (fun p => !(kwargs.map Prod.fst).contains p)
      r.required_param_names = some name := hname
  refine ⟨name, List.mem_of_find?_eq_some hfind, ?_, ?_⟩
  · have := List.find?_some hfind
    simpa using this
  · unfold KazooRequest.execute
    simp only [hm, if_true, hname]

/-- Witness for C1's amended theorem: path `/a/{b}`, no parameters given. -/
theorem C1_witness :
    ∃ name ∈ KazooRequest.required_param_names ⟨"/a/\x7bb\x7d", true, "get", none⟩,
      ((([] : List (String × String)).map Prod.fst).contains name = false ∧
      KazooRequest.execute ⟨"/a/\x7bb\x7d", true, "get", none⟩ (fun _ => ⟨200, [], none⟩)
        "http://x" none none none none [] = (.missingParam name, [])) :=
  C1_missing_param_fails_fast ⟨"/a/\x7bb\x7d", true, "get", none⟩ (fun _ => ⟨200, [], none⟩)
    "http://x" none none none none [] rfl ⟨"b", by decide, rfl⟩

/-! ### Claim C3 -/

/-- C3 counterexample: supplying the falsy `data` value `{}` dispatches a
request with no body at all — not the JSON serialization of
`{"data": {}}` — because the source guards the body with Python
truthiness (`if data:`), not with presence. -/
theorem C3_counterexample :
    ((KazooRequest.execute ⟨"/a", true, "get", none⟩
        (fun _ => ⟨200, [], some (Json.obj [("status", Json.str "success")])⟩)
        "http://x" none (some (Json.obj [])) none none []).2.map HttpRequest.body) = [none] ∧
    ((KazooRequest.execute ⟨"/a", true, "get", none⟩
        (fun _ => ⟨200, [], some (Json.obj [("status", Json.str "success")])⟩)
        "http://x" none (some (Json.obj [])) none none []).2.map HttpRequest.body) ≠
      [some (Json.dumps (Json.obj [("data", Json.obj [])]))] :=
  ⟨rfl, by decide⟩

/-- C3 amended: for every execute call that dispatches, the dispatched
request is `builtRequest`; whenever the caller supplies a truthy `data`
argument (with or without files), its body is the JSON serialization of
`{"data": data}`; whenever the caller supplies non-empty `files` (with
or without data), they are passed through as the multipart payload; both
may be set on the same call. (A falsy `data` or empty `files` is treated
as absent.) -/
theorem C3_truthy_data_and_files_sent (r : KazooRequest) (transport : HttpRequest → RawResponse)
    (base_url : String) (methodArg : Option String) (data : Option Json)
    (token : Option String) (files : Option Files) (kwargs : List (String × String))
    (full_url : String)
    (hm : http_methods.contains (methodArg.getD r.method) = true)
    (hp : firstMissing r.required_param_names kwargs = none)
    (hu : _get_url r kwargs base_url = some full_url) :
    (KazooRequest.execute r transport base_url methodArg data token files kwargs =
      (handleResponse (transport (builtRequest (methodArg.getD r.method) full_url
          r.auth_required token data files)),
       [builtRequest (methodArg.getD r.method) full_url r.auth_required token data files])) ∧
    (∀ d : Json, data = some d → d.truthy = true →
      (builtRequest (methodArg.getD r.method) full_url r.auth_required token data files).body =
        some (Json.dumps (Json.obj [("data", d)]))) ∧
    (∀ f : Files, files = some f → List.isEmpty f = false →
      (builtRequest (methodArg.getD r.method) full_url r.auth_required token data files).files =
        some f) := by
  refine ⟨execute_dispatches r transport base_url methodArg data token files kwargs
      full_url hm hp hu, ?_, ?_⟩
  · intro d hd ht
    subst hd
    simp only [builtRequest, ht, if_true]
  · intro f hf hfe
    subst hf
    simp only [builtRequest, hfe, Bool.false_eq_true, if_false]

/-- Witness for C3's amended theorem: a single call with truthy data and
non-empty files set together dispatches both the serialized body and the
files payload. -/
theorem C3_witness :
    HttpRequest.body (builtRequest "get" "http://x/a" true none
        (some (Json.obj [("k", Json.str "v")])) (some [("f1", "contents")])) =
      some (Json.dumps (Json.obj [("data", Json.obj [("k", Json.str "v")])])) ∧
    HttpRequest.files (builtRequest "get" "http://x/a" true none
        (some (Json.obj [("k", Json.str "v")])) (some [("f1", "contents")])) =
      some [("f1", "contents")] :=
  ⟨(C3_truthy_data_and_files_sent ⟨"/a", true, "get", none⟩
      (fun _ => ⟨200, [], some (Json.obj [("status", Json.str "success")])⟩)
      "http://x" none (some (Json.obj [("k", Json.str "v")])) none
      (some [("f1", "contents")]) [] "http://x/a" rfl rfl rfl).2.1
    (Json.obj [("k", Json.str "v")]) rfl rfl,
   (C3_truthy_data_and_files_sent ⟨"/a", true, "get", none⟩
      (fun _ => ⟨200, [], some (Json.obj [("status", Json.str "success")])⟩)
      "http://x" none (some (Json.obj [("k", Json.str "v")])) none
      (some [("f1", "contents")]) [] "http://x/a" rfl rfl rfl).2.2
    [("f1", "contents")] rfl rfl⟩

/-! ### Claim C5 -/

/-- C5: for every execute call whose HTTP response status is not 500 and
whose parsed JSON body has a `status` field not equal to `"error"`,
execute returns the parsed JSON body unmodified as its result. -/
theorem C5_success_returns_body (r : KazooRequest) (transport : HttpRequest → RawResponse)
    (base_url : String) (methodArg : Option String) (data : Option Json)
    (token : Option String) (files : Option Files) (kwargs : List (String × String))
    (full_url : String) (j st : Json)
    (hm : http_methods.contains (methodArg.getD r.method) = true)
    (hp : firstMissing r.required_param_names kwargs = none)
    (hu : _get_url r kwargs base_url = some full_url)
    (hs : (transport (builtRequest (methodArg.getD r.method) full_url r.auth_required
        token data files)).status_code ≠ 500)
    (hb : (transport (builtRequest (methodArg.getD r.method) full_url r.auth_required
        token data files)).jsonBody = some j)
    (hst : j.subscript "status" = .ok st)
    (hne : st.isStr "error" = false) :
    (KazooRequest.execute r transport base_url methodArg data token files kwargs).1 =
      .success j := by
  rw [execute_dispatches r transport base_url methodArg data token files kwargs
      full_url hm hp hu]
  simp only [handleResponse, hs, if_false, hb, hst, hne, Bool.false_eq_true, if_neg]

/-- Witness for C5: a success body is returned unmodified. -/
theorem C5_witness :
    (KazooRequest.execute ⟨"/a", true, "get", none⟩
        (fun _ => ⟨200, [], some (Json.obj [("status", Json.str "success"),
          ("data", Json.obj [("x", Json.num 1)])])⟩)
        "http://x" none none none none []).1 =
      .success (Json.obj [("status", Json.str "success"),
        ("data", Json.obj [("x", Json.num 1)])]) :=
  C5_success_returns_body ⟨"/a", true, "get", none⟩
    (fun _ => ⟨200, [], some (Json.obj [("status", Json.str "success"),
      ("data", Json.obj [("x", Json.num 1)])])⟩)
    "http://x" none none none none [] "http://x/a"
    (Json.obj [("status", Json.str "success"), ("data", Json.obj [("x", Json.num 1)])])
    (Json.str "success") rfl rfl rfl (by decide) rfl rfl rfl

/-- A JSON value equal (as Python `==`) to one string literal is not equal
to a different one. -/
theorem isStr_of_ne {j : Json} {a b : String} (h : j.isStr a = true) (hab : a ≠ b) :
    j.isStr b = false := by
  cases j with
  | str s =>
    simp only [Json.isStr, beq_iff_eq] at h
    simp only [Json.isStr, beq_eq_false_iff_ne, ne_eq]
    subst h
    exact hab
  | null => rfl
  | bool x => rfl
  | num x => rfl
  | arr xs => rfl
  | obj fs => rfl

/-! ### Claim C8 -/

/-- C8: for every non-500 response whose parsed JSON body has status
`"error"` and error code `"401"`, execute raises `AuthenticationError`
with the fixed message `"Invalid credentials"`, independent of all other
fields of the body. -/
theorem C8_401_authentication_error (r : KazooRequest) (transport : HttpRequest → RawResponse)
    (base_url : String) (methodArg : Option String) (data : Option Json)
    (token : Option String) (files : Option Files) (kwargs : List (String × String))
    (full_url : String) (j st e : Json)
    (hm : http_methods.contains (methodArg.getD r.method) = true)
    (hp : firstMissing r.required_param_names kwargs = none)
    (hu : _get_url r kwargs base_url = some full_url)
    (hs : (transport (builtRequest (methodArg.getD r.method) full_url r.auth_required
        token data files)).status_code ≠ 500)
    (hb : (transport (builtRequest (methodArg.getD r.method) full_url r.auth_required
        token data files)).jsonBody = some j)
    (hst : j.subscript "status" = .ok st)
    (hiserr : st.isStr "error" = true)
    (herr : j.subscript "error" = .ok e)
    (h401 : e.isStr "401" = true) :
    (KazooRequest.execute r transport base_url methodArg data token files kwargs).1 =
      .authError "Invalid credentials" := by
  rw [execute_dispatches r transport base_url methodArg data token files kwargs
      full_url hm hp hu]
  have h400 : e.isStr "400" = false := isStr_of_ne h401 (by decide)
  simp only [handleResponse, hs, if_false, hb, hst, hiserr, if_true, _handle_error,
    herr, h400, Bool.false_and, Bool.false_eq_true, h401]

/-- Witness for C8: error body carrying extra fields, including `data`. -/
theorem C8_witness :
    (KazooRequest.execute ⟨"/a", true, "get", none⟩
        (fun _ => ⟨200, [], some (Json.obj [("status", Json.str "error"),
          ("error", Json.str "401"), ("data", Json.str "ignored"),
          ("message", Json.str "ignored too")])⟩)
        "http://x" none none none none []).1 = .authError "Invalid credentials" :=
  C8_401_authentication_error ⟨"/a", true, "get", none⟩
    (fun _ => ⟨200, [], some (Json.obj [("status", Json.str "error"),
      ("error", Json.str "401"), ("data", Json.str "ignored"),
      ("message", Json.str "ignored too")])⟩)
    "http://x" none none none none [] "http://x/a"
    (Json.obj [("status", Json.str "error"), ("error", Json.str "401"),
      ("data", Json.str "ignored"), ("message", Json.str "ignored too")])
    (Json.str "error") (Json.str "401") rfl rfl rfl (by decide) rfl rfl rfl rfl rfl

/-! ### Claim C9 -/

/-- C9: for every non-500 response whose parsed JSON body has status
`"error"`: an error code `"400"` together with a `data` field raises
`BadDataError` carrying exactly that `data` payload, and any code other
than `"400"`-with-`data` or `"401"` raises the generic API error carrying
the body's `request_id` and `message`. -/
theorem C9_error_code_dispatch (r : KazooRequest) (transport : HttpRequest → RawResponse)
    (base_url : String) (methodArg : Option String) (data : Option Json)
    (token : Option String) (files : Option Files) (kwargs : List (String × String))
    (full_url : String) (j st : Json)
    (hm : http_methods.contains (methodArg.getD r.method) = true)
    (hp : firstMissing r.required_param_names kwargs = none)
    (hu : _get_url r kwargs base_url = some full_url)
    (hs : (transport (builtRequest (methodArg.getD r.method) full_url r.auth_required
        token data files)).status_code ≠ 500)
    (hb : (transport (builtRequest (methodArg.getD r.method) full_url r.auth_required
        token data files)).jsonBody = some j)
    (hst : j.subscript "status" = .ok st)
    (hiserr : st.isStr "error" = true) :
    ((∀ e d : Json, j.subscript "error" = .ok e → e.isStr "400" = true →
        j.subscript "data" = .ok d →
        (KazooRequest.execute r transport base_url methodArg data token files kwargs).1 =
          .badData d)
     ∧ (∀ e rid msg : Json, j.subscript "error" = .ok e →
        (e.isStr "400" && j.hasKey "data") = false → e.isStr "401" = false →
        j.subscript "request_id" = .ok rid → j.subscript "message" = .ok msg →
        (KazooRequest.execute r transport base_url methodArg data token files kwargs).1 =
          .apiError rid msg)) := by
  have hdisp := execute_dispatches r transport base_url methodArg data token files kwargs
      full_url hm hp hu
  constructor
  · intro e d herr h400 hdata
    rw [hdisp]
    have hkey : j.hasKey "data" = true := by
      unfold Json.hasKey
      rw [hdata]
    simp only [handleResponse, hs, if_false, hb, hst, hiserr, if_true, _handle_error,
      herr, h400, hkey, Bool.and_self, hdata]
  · intro e rid msg herr hnot400 hnot401 hrid hmsg
    rw [hdisp]
    simp only [handleResponse, hs, if_false, hb, hst, hiserr, if_true, _handle_error,
      herr, hnot400, hnot401, Bool.false_eq_true, hrid, hmsg]

/-- Witness for C9: a 400-with-data body taking the bad-data branch. -/
theorem C9_witness :
    (KazooRequest.execute ⟨"/a", true, "get", none⟩
        (fun _ => ⟨200, [], some (Json.obj [("status", Json.str "error"),
          ("error", Json.str "400"), ("data", Json.obj [("field", Json.str "bad")])])⟩)
        "http://x" none none none none []).1 =
      .badData (Json.obj [("field", Json.str "bad")]) :=
  (C9_error_code_dispatch ⟨"/a", true, "get", none⟩
    (fun _ => ⟨200, [], some (Json.obj [("status", Json.str "error"),
      ("error", Json.str "400"), ("data", Json.obj [("field", Json.str "bad")])])⟩)
    "http://x" none none none none [] "http://x/a"
    (Json.obj [("status", Json.str "error"), ("error", Json.str "400"),
      ("data", Json.obj [("field", Json.str "bad")])])
    (Json.str "error") rfl rfl rfl (by decide) rfl rfl rfl).1
    (Json.str "400") (Json.obj [("field", Json.str "bad")]) rfl rfl rfl

/-! ### Claim C10 -/

/-- C10: for every non-500 response whose body is valid JSON but — as a
dictionary — lacks a `status` key, execute raises an untyped key-lookup
error (`KeyError`), which is none of the typed outcomes: it neither
returns the body nor raises a typed API error. -/
theorem C10_missing_status_key_error (r : KazooRequest) (transport : HttpRequest → RawResponse)
    (base_url : String) (methodArg : Option String) (data : Option Json)
    (token : Option String) (files : Option Files) (kwargs : List (String × String))
    (full_url : String) (fs : List (String × Json))
    (hm : http_methods.contains (methodArg.getD r.method) = true)
    (hp : firstMissing r.required_param_names kwargs = none)
    (hu : _get_url r kwargs base_url = some full_url)
    (hs : (transport (builtRequest (methodArg.getD r.method) full_url r.auth_required
        token data files)).status_code ≠ 500)
    (hb : (transport (builtRequest (methodArg.getD r.method) full_url r.auth_required
        token data files)).jsonBody = some (Json.obj fs))
    (hlook : List.lookup "status" fs = none) :
    (KazooRequest.execute r transport base_url methodArg data token files kwargs).1 =
      .pythonError "KeyError" := by
  rw [execute_dispatches r transport base_url methodArg data token files kwargs
      full_url hm hp hu]
  simp only [handleResponse, hs, if_false, hb, Json.subscript, hlook]

/-- Witness for C10: a decoded dict without a `status` key. -/
theorem C10_witness :
    (KazooRequest.execute ⟨"/a", true, "get", none⟩
        (fun _ => ⟨200, [], some (Json.obj [("ok", Json.bool true)])⟩)
        "http://x" none none none none []).1 = .pythonError "KeyError" :=
  C10_missing_status_key_error ⟨"/a", true, "get", none⟩
    (fun _ => ⟨200, [], some (Json.obj [("ok", Json.bool true)])⟩)
    "http://x" none none none none [] "http://x/a" [("ok", Json.bool true)]
    rfl rfl rfl (by decide) rfl rfl

/-! ### Claim C2 -/

/-- C2 counterexample: on a 500 response whose body does not parse as
JSON, execute propagates the decoder's untyped error rather than raising
the generic API error with the placeholder message, so the claim's
"fixed placeholder if the body does not parse as JSON" clause is false. -/
theorem C2_counterexample :
    (KazooRequest.execute ⟨"/a", true, "get", none⟩
        (fun _ => ⟨500, [("X-Request-Id", "abc123")], none⟩)
        "http://x" none none none none []).1 = .pythonError "JSONDecodeError" ∧
    Outcome.isApiError (KazooRequest.execute ⟨"/a", true, "get", none⟩
        (fun _ => ⟨500, [("X-Request-Id", "abc123")], none⟩)
        "http://x" none none none none []).1 = false :=
  ⟨rfl, rfl⟩

/-- C2 amended: for every execute call whose HTTP response has status 500
and an `X-Request-Id` header, execute raises the generic API error
carrying that header value as request id and, as message, the `data`
field of the response body when the body parses as a truthy JSON value,
or the fixed placeholder when it parses as a falsy JSON value. (A body
that fails to parse propagates an untyped JSON decode error, and a
truthy body without a `data` field an untyped key error, instead.) -/
theorem C2_500_generic_api_error (r : KazooRequest) (transport : HttpRequest → RawResponse)
    (base_url : String) (methodArg : Option String) (data : Option Json)
    (token : Option String) (files : Option Files) (kwargs : List (String × String))
    (full_url : String) (rid : String)
    (hm : http_methods.contains (methodArg.getD r.method) = true)
    (hp : firstMissing r.required_param_names kwargs = none)
    (hu : _get_url r kwargs base_url = some full_url)
    (hs : (transport (builtRequest (methodArg.getD r.method) full_url r.auth_required
        token data files)).status_code = 500)
    (hh : headerGet (transport (builtRequest (methodArg.getD r.method) full_url
        r.auth_required token data files)).headers "X-Request-Id" = some rid) :
    ((∀ j d : Json,
        (transport (builtRequest (methodArg.getD r.method) full_url r.auth_required
          token data files)).jsonBody = some j →
        j.truthy = true → j.subscript "data" = .ok d →
        (KazooRequest.execute r transport base_url methodArg data token files kwargs).1 =
          .apiError (.str rid) d)
     ∧ (∀ j : Json,
        (transport (builtRequest (methodArg.getD r.method) full_url r.auth_required
          token data files)).jsonBody = some j →
        j.truthy = false →
        (KazooRequest.execute r transport base_url methodArg data token files kwargs).1 =
          .apiError (.str rid) (.str "There was no error message"))) := by
  have hdisp := execute_dispatches r transport base_url methodArg data token files kwargs
      full_url hm hp hu
  constructor
  · intro j d hb hjt hd
    rw [hdisp]
    simp only [handleResponse, hs, if_true, _handle_500_error, hh, hb, hjt, hd]
  · intro j hb hjt
    rw [hdisp]
    simp only [handleResponse, hs, if_true, _handle_500_error, hh, hb, hjt,
      Bool.false_eq_true, if_false]

/-- Witness for C2's amended theorem: 500 with request id `abc123` and a
truthy JSON body carrying `data: "oops"`. -/
theorem C2_witness :
    (KazooRequest.execute ⟨"/a", true, "get", none⟩
        (fun _ => ⟨500, [("X-Request-Id", "abc123")],
          some (Json.obj [("data", Json.str "oops")])⟩)
        "http://x" none none none none []).1 =
      .apiError (.str "abc123") (Json.str "oops") :=
  (C2_500_generic_api_error ⟨"/a", true, "get", none⟩
    (fun _ => ⟨500, [("X-Request-Id", "abc123")],
      some (Json.obj [("data", Json.str "oops")])⟩)
    "http://x" none none none none [] "http://x/a" "abc123"
    rfl rfl rfl rfl rfl).1
    (Json.obj [("data", Json.str "oops")]) (Json.str "oops") rfl rfl rfl

/-! ### Claim C6 -/

/-- Sanity vector for the MD5 embedding: the digest of the literal
`"u:p"` matches `hashlib.md5("u:p".encode()).hexdigest()`. -/
theorem md5_sample_vector :
    _get_hashed_credentials "u" "p" = "c23f67b65d6550777a4469461ecfb51e" := rfl

/-- C6: for every username, password and account name, the
username/password authentication request dispatches exactly one request:
method PUT, the fixed path `/user_auth` appended to the base url, no
auth-token header (auth not required), and body data
`{"credentials": <MD5 hex digest of the UTF-8 bytes of username:password>,
"account_name": <account name>}`. -/
theorem C6_username_password_auth (a : UsernamePasswordAuthRequest)
    (transport : HttpRequest → RawResponse) (base_url : String) :
    ∃ hreq : HttpRequest,
      UsernamePasswordAuthRequest.execute a transport base_url =
        (handleResponse (transport hreq), [hreq]) ∧
      hreq.method = "put" ∧
      hreq.url = base_url ++ "/user_auth" ∧
      hreq.headers = [("Content-Type", some "application/json")] ∧
      hreq.body = some (Json.dumps (Json.obj [("data", Json.obj
        [("credentials", Json.str (md5Hex (utf8Encode (a.username ++ ":" ++ a.password)))),
         ("account_name", Json.str a.account_name)])])) ∧
      hreq.files = none :=
  ⟨builtRequest "put" (base_url ++ "/user_auth") false none
      (some (Json.obj
        [("credentials", Json.str (_get_hashed_credentials a.username a.password)),
         ("account_name", Json.str a.account_name)])) none,
   rfl, rfl, rfl, rfl, rfl, rfl⟩

/-! ### Claim C4 -/

/-- Specification-side reading of C4, following the spec's words: the
string `s` occurs as a `\x7bname\x7d` token of the template `t` — the
template contains, consecutively, an opening brace, the name `s`
(nonempty, word characters only), and a closing brace. -/
def isTokenOccurrence (s : String) (t : List Char) : Prop :=
  s.data ≠ [] ∧ (∀ c ∈ s.data, isWordChar c = true) ∧
  ∃ l r : List Char, t = l ++ lbrace :: (s.data ++ rbrace :: r)

/-- Prepending a character preserves token occurrences. -/
theorem isTokenOccurrence_cons {s : String} {t : List Char} (c : Char)
    (h : isTokenOccurrence s t) : isTokenOccurrence s (c :: t) := by
  obtain ⟨h1, h2, l, r, hlr⟩ := h
  exact ⟨h1, h2, c :: l, r, by rw [hlr, List.cons_append]⟩

/-- The length of `dropWhile` never exceeds the input's. -/
theorem dropWhile_length_le {α : Type} (p : α → Bool) :
    ∀ l : List α, (l.dropWhile p).length ≤ l.length
  | [] => Nat.le_refl 0
  | a :: l => by
    by_cases h : p a
    · simp only [List.dropWhile_cons, h, if_true, List.length_cons]
      exact Nat.le_succ_of_le (dropWhile_length_le p l)
    · simp [List.dropWhile_cons, h]

/-- `takeWhile` over a word run followed by a closing brace is the run. -/
theorem takeWhile_word_run : ∀ (run r : List Char), (∀ c ∈ run, isWordChar c = true) →
    (run ++ rbrace :: r).takeWhile isWordChar = run := by
  intro run
  induction run with
  | nil =>
    intro r _
    simp [List.takeWhile_cons, show isWordChar rbrace = false from by decide]
  | cons a run' ih =>
    intro r hw
    have ha : isWordChar a = true := hw a (List.mem_cons_self a run')
    simp only [List.cons_append, List.takeWhile_cons, ha, if_true, List.cons.injEq,
      true_and]
    exact ih r (fun c hc => hw c (List.mem_cons_of_mem a hc))

/-- `dropWhile` over a word run followed by a closing brace drops the run. -/
theorem dropWhile_word_run : ∀ (run r : List Char), (∀ c ∈ run, isWordChar c = true) →
    (run ++ rbrace :: r).dropWhile isWordChar = rbrace :: r := by
  intro run
  induction run with
  | nil =>
    intro r _
    simp [List.dropWhile_cons, show isWordChar rbrace = false from by decide]
  | cons a run' ih =>
    intro r hw
    have ha : isWordChar a = true := hw a (List.mem_cons_self a run')
    simp only [List.cons_append, List.dropWhile_cons, ha, if_true]
    exact ih r (fun c hc => hw c (List.mem_cons_of_mem a hc))

/-- A brace-opened occurrence inside `run ++ rbrace :: rest3`, where the
run is all word characters, must lie inside `rest3`. -/
theorem word_run_split : ∀ (run l' mid rest3 : List Char),
    (∀ c ∈ run, isWordChar c = true) →
    run ++ rbrace :: rest3 = l' ++ lbrace :: mid →
    ∃ l'', l' = run ++ rbrace :: l'' ∧ rest3 = l'' ++ lbrace :: mid := by
  intro run
  induction run with
  | nil =>
    intro l' mid rest3 _ heq
    simp only [List.nil_append] at heq
    cases l' with
    | nil =>
      simp only [List.nil_append] at heq
      injection heq with h1 _
      exact absurd h1 (by decide)
    | cons x l'' =>
      simp only [List.cons_append] at heq
      injection heq with h1 h2
      refine ⟨l'', ?_, h2⟩
      simp [← h1]
  | cons a run' ih =>
    intro l' mid rest3 hw heq
    cases l' with
    | nil =>
      simp only [List.nil_append] at heq
      injection heq with h1 _
      have ha := hw a (List.mem_cons_self a run')
      rw [h1] at ha
      exact absurd ha (by decide)
    | cons x l'2 =>
      simp only [List.cons_append] at heq
      injection heq with h1 h2
      obtain ⟨l'', hl', hr3⟩ := ih l'2 mid rest3 (fun c hc => hw c (List.mem_cons_of_mem a hc)) h2
      refine ⟨l'', ?_, hr3⟩
      subst h1
      simp [hl']

/-- Soundness of the scan: every name it finds occurs as a token. -/
theorem findParamsAux_sound : ∀ (fuel : Nat) (t : List Char) (s : String),
    t.length ≤ fuel → s ∈ findParamsAux fuel t → isTokenOccurrence s t := by
  intro fuel
  induction fuel with
  | zero =>
    intro t s _ hs
    simp [findParamsAux] at hs
  | succ n ih =>
    intro t s ht hs
    cases t with
    | nil => simp [findParamsAux] at hs
    | cons c rest =>
      have hlen : rest.length ≤ n := by
        simp only [List.length_cons] at ht
        omega
      by_cases hc : c = lbrace
      · subst hc
        simp only [findParamsAux, eq_self_iff_true, if_true] at hs
        cases hdw : rest.dropWhile isWordChar with
        | nil =>
          simp only [hdw] at hs
          exact isTokenOccurrence_cons lbrace (ih rest s hlen hs)
        | cons d rest3 =>
          simp only [hdw] at hs
          by_cases hcond : d = rbrace ∧ rest.takeWhile isWordChar ≠ []
          · rw [if_pos hcond] at hs
            obtain ⟨hd, hrun⟩ := hcond
            subst hd
            have hrest : rest = rest.takeWhile isWordChar ++ rbrace :: rest3 := by
              conv_lhs => rw [← List.takeWhile_append_dropWhile isWordChar rest]
              rw [hdw]
            rcases List.mem_cons.mp hs with heq | htail
            · refine ⟨?_, ?_, [], rest3, ?_⟩
              · rw [heq]
                exact hrun
              · intro ch hch
                rw [heq] at hch
                exact List.mem_takeWhile_imp hch
              · rw [heq]
                simp only [List.nil_append]
                rw [← hrest]
            · have hlen3 : rest3.length ≤ n := by
                have h1 := dropWhile_length_le isWordChar rest
                rw [hdw] at h1
                simp only [List.length_cons] at h1
                omega
              obtain ⟨h1, h2, l', r', hlr⟩ := ih rest3 s hlen3 htail
              refine ⟨h1, h2, lbrace :: rest.takeWhile isWordChar ++ rbrace :: l', r', ?_⟩
              conv_lhs => rw [hrest, hlr]
              simp [List.append_assoc]
          · rw [if_neg hcond] at hs
            exact isTokenOccurrence_cons lbrace (ih rest s hlen hs)
      · simp only [findParamsAux, hc, if_false] at hs
        exact isTokenOccurrence_cons c (ih rest s hlen hs)

/-- Completeness of the scan: every token occurrence is found. -/
theorem findParamsAux_complete : ∀ (fuel : Nat) (t : List Char) (s : String),
    t.length ≤ fuel → isTokenOccurrence s t → s ∈ findParamsAux fuel t := by
  intro fuel
  induction fuel with
  | zero =>
    intro t s ht htok
    have ht0 : t = [] := List.eq_nil_of_length_eq_zero (Nat.le_zero.mp ht)
    subst ht0
    obtain ⟨_, _, l, r, hlr⟩ := htok
    exact absurd hlr (by simp)
  | succ n ih =>
    intro t s ht htok
    obtain ⟨hne, hword, l, r, hlr⟩ := htok
    subst hlr
    cases l with
    | nil =>
      simp only [List.nil_append] at ht ⊢
      simp only [findParamsAux, eq_self_iff_true, if_true]
      simp only [dropWhile_word_run s.data r hword]
      rw [takeWhile_word_run s.data r hword]
      rw [if_pos ⟨trivial, hne⟩]
      have hmk : String.mk s.data = s := by cases s; rfl
      rw [hmk]
      exact List.mem_cons_self s _
    | cons c l' =>
      simp only [List.cons_append] at ht ⊢
      have hlen : (l' ++ lbrace :: (s.data ++ rbrace :: r)).length ≤ n := by
        simp only [List.length_cons] at ht
        omega
      by_cases hc : c = lbrace
      · subst hc
        simp only [findParamsAux, eq_self_iff_true, if_true]
        cases hdw : (l' ++ lbrace :: (s.data ++ rbrace :: r)).dropWhile isWordChar with
        | nil =>
          exfalso
          have hall := List.dropWhile_eq_nil_iff.mp hdw
          have hbad : isWordChar lbrace = true := hall lbrace (by simp)
          exact absurd hbad (by decide)
        | cons d rest3 =>
          simp only [hdw]
          by_cases hcond : d = rbrace ∧
              (l' ++ lbrace :: (s.data ++ rbrace :: r)).takeWhile isWordChar ≠ []
          · rw [if_pos hcond]
            obtain ⟨hd, _⟩ := hcond
            subst hd
            have hrest2 : (l' ++ lbrace :: (s.data ++ rbrace :: r)).takeWhile isWordChar ++
                rbrace :: rest3 = l' ++ lbrace :: (s.data ++ rbrace :: r) := by
              rw [← hdw]
              exact List.takeWhile_append_dropWhile isWordChar _
            obtain ⟨l'', hl', hr3⟩ := word_run_split
              ((l' ++ lbrace :: (s.data ++ rbrace :: r)).takeWhile isWordChar)
              l' (s.data ++ rbrace :: r) rest3
              (fun ch hch => List.mem_takeWhile_imp hch) hrest2
            have htok3 : isTokenOccurrence s rest3 := ⟨hne, hword, l'', r, by rw [hr3]⟩
            have hlen3 : rest3.length ≤ n := by
              have h1 := dropWhile_length_le isWordChar (l' ++ lbrace :: (s.data ++ rbrace :: r))
              rw [hdw] at h1
              simp only [List.length_cons] at h1
              omega
            exact List.mem_cons_of_mem _ (ih rest3 s hlen3 htok3)
          · rw [if_neg hcond]
            exact ih _ s hlen ⟨hne, hword, l', r, rfl⟩
      · simp only [findParamsAux, hc, if_false]
        exact ih _ s hlen ⟨hne, hword, l', r, rfl⟩

/-- C4: for every descriptor, the set of required parameter names computed
at construction equals the set of `\x7bname\x7d` tokens occurring in the
path template — membership agrees, so the comparison is order-insensitive
and duplicates collapse. -/
theorem C4_required_params_are_token_set (r : KazooRequest) (s : String) :
    s ∈ r.required_param_names ↔ isTokenOccurrence s r.path.data :=
  ⟨fun h => findParamsAux_sound r.path.data.length r.path.data s (Nat.le_refl _) h,
   fun h => findParamsAux_complete r.path.data.length r.path.data s (Nat.le_refl _) h⟩
